import Mathlib

/-!
Verification of the mipidsi display-driver core: the addressing transform,
builder validation, reset sequencing, panel lifecycle defaults and the
session facade, shallowly embedded from the Rust source.

Machine integers are modelled as `Nat` with explicit saturation / modulus
where the source uses `saturating_*` or widening arithmetic.  Bus, pin and
delay effects are modelled by explicit state passing over a `World` that
records a trace of events; fallible operations consult a success oracle and
return `Except World World`, the error carrying the world at the failure
point (partially transmitted commands are not rolled back).
-/

namespace Mipidsi

/-- Rust `u16::MAX`. -/
def U16_MAX : Nat := 65535

/-- Rust `u16::saturating_add`: clamps at `u16::MAX`. -/
def satAdd16 (a b : Nat) : Nat := min (a + b) U16_MAX

/-- Rust `u16::saturating_sub` on naturals: `Nat` subtraction is already saturating. -/
def satSub16 (a b : Nat) : Nat := a - b

/-- Rust `u32` addition after widening from `u16` (`u32::from(a) + u32::from(b)`
in `Builder::init`); the modulus makes the 32-bit wrap explicit. -/
def add32 (a b : Nat) : Nat := (a + b) % 2 ^ 32

/-- Rust `interface::InterfaceKind` (interface.rs). -/
inductive InterfaceKind
  | Serial4Line
  | Parallel8Bit
  | Parallel16Bit
deriving DecidableEq, Repr

/-- Rust `options::ColorInversion` (options.rs). -/
inductive ColorInversion
  | Normal
  | Inverted
deriving DecidableEq, Repr

/-- Rust `options::ColorOrder` (options.rs). -/
inductive ColorOrder
  | Rgb
  | Bgr
deriving DecidableEq, Repr

/-- Rust `options::VerticalRefreshOrder` (options.rs). -/
inductive VerticalRefreshOrder
  | TopToBottom
  | BottomToTop
deriving DecidableEq, Repr

/-- Rust `options::HorizontalRefreshOrder` (options.rs). -/
inductive HorizontalRefreshOrder
  | LeftToRight
  | RightToLeft
deriving DecidableEq, Repr

/-- Rust `options::RefreshOrder` (options.rs). -/
structure RefreshOrder where
  vertical : VerticalRefreshOrder
  horizontal : HorizontalRefreshOrder
deriving DecidableEq, Repr

/-- Modelled from the spec: the rotation part of an orientation
(0/90/180/270 degrees); the source file `options/orientation.rs` is not
under src/. -/
inductive Rotation
  | Deg0
  | Deg90
  | Deg180
  | Deg270
deriving DecidableEq, Repr

/-- Modelled from the spec: an orientation is a rotation plus a mirror flag;
the source file `options/orientation.rs` is not under src/. -/
structure Orientation where
  rotation : Rotation
  mirrored : Bool
deriving DecidableEq, Repr

/-- Rust `options::MemoryMapping`: three booleans derived from an orientation.
The deriving function `MemoryMapping::from(Orientation)` lives in
`options/orientation.rs`, which is not under src/; it is a pure function, so
theorems below quantify over all `MemoryMapping` values, which covers every
orientation. -/
structure MemoryMapping where
  reverse_columns : Bool
  reverse_rows : Bool
  swap_rows_and_columns : Bool
deriving DecidableEq, Repr

/-- Rust `options::ModelOptions` (options.rs).  The `u16` size and offset pairs
are naturals; theorems that need the `u16` range state it as a bound. -/
structure ModelOptions where
  color_order : ColorOrder
  orientation : Orientation
  invert_colors : ColorInversion
  refresh_order : RefreshOrder
  display_size : Nat × Nat
  display_offset : Nat × Nat
deriving DecidableEq, Repr

/-- Modelled from the spec: the `SetAddressMode` (MADCTL) command value is
derived from the configuration's color order, orientation and refresh order;
the `dcs` module holding its bit layout is not under src/, so the value is
kept structured. -/
structure SetAddressMode where
  color_order : ColorOrder
  orientation : Orientation
  refresh_order : RefreshOrder
deriving DecidableEq, Repr

/-- Rust `SetAddressMode::from(&ModelOptions)`: projects the three relevant
configuration fields (modelled from the spec; `dcs` module not under src/). -/
def SetAddressMode.fromOptions (o : ModelOptions) : SetAddressMode :=
  ⟨o.color_order, o.orientation, o.refresh_order⟩

/-- One observable hardware effect: a DCS command with its argument bytes, a
structured MADCTL write, a pixel-data burst (recorded by length), a delay in
microseconds, or a reset-pin edge. -/
inductive Event
  | cmd (opcode : Nat) (args : List Nat)
  | madctlCmd (m : SetAddressMode)
  | data (len : Nat)
  | delayUs (us : Nat)
  | pinLow
  | pinHigh
deriving DecidableEq, Repr

/-- The hardware world: a success oracle for fallible bus/pin operations, the
count of fallible operations attempted so far, and the trace of events
emitted so far. -/
structure World where
  oracle : Nat → Bool
  opCount : Nat
  trace : List Event

/-- A fallible bus or pin operation: consults the oracle; on success the
event is appended to the trace, on failure the error carries the world at
the failure point (nothing is rolled back). -/
def World.emit (w : World) (e : Event) : Except World World :=
  if w.oracle w.opCount then
    .ok { w with opCount := w.opCount + 1, trace := w.trace ++ [e] }
  else
    .error { w with opCount := w.opCount + 1 }

/-- Rust `DelayNs::delay_us`: infallible, recorded in the trace. -/
def World.delayUs (w : World) (us : Nat) : World :=
  { w with trace := w.trace ++ [Event.delayUs us] }

/-- A world whose operations all succeed, used to instantiate theorems. -/
def allOkWorld : World := ⟨fun _ => true, 0, []⟩

/-! Section: DCS command writes

The `dcs` module is not under src/; each command's opcode and argument
layout below is modelled from the spec's command table (§6). -/

/-- Modelled from the spec: `SoftReset`, opcode 0x01, no args. -/
def writeSoftReset (w : World) : Except World World :=
  w.emit (Event.cmd 0x01 [])

/-- Modelled from the spec: `EnterSleepMode`, opcode 0x10, no args. -/
def writeEnterSleepMode (w : World) : Except World World :=
  w.emit (Event.cmd 0x10 [])

/-- Modelled from the spec: `ExitSleepMode`, opcode 0x11, no args. -/
def writeExitSleepMode (w : World) : Except World World :=
  w.emit (Event.cmd 0x11 [])

/-- Modelled from the spec: `WriteMemoryStart`, opcode 0x2C, no args. -/
def writeMemoryStartCmd (w : World) : Except World World :=
  w.emit (Event.cmd 0x2C [])

/-- Modelled from the spec: `SetColumnAddress`, opcode 0x2A,
args `[sx_hi, sx_lo, ex_hi, ex_lo]`. -/
def writeSetColumnAddress (w : World) (sx ex : Nat) : Except World World :=
  w.emit (Event.cmd 0x2A [sx / 256, sx % 256, ex / 256, ex % 256])

/-- Modelled from the spec: `SetPageAddress`, opcode 0x2B,
args `[sy_hi, sy_lo, ey_hi, ey_lo]`. -/
def writeSetPageAddress (w : World) (sy ey : Nat) : Except World World :=
  w.emit (Event.cmd 0x2B [sy / 256, sy % 256, ey / 256, ey % 256])

/-- Modelled from the spec: `SetScrollArea` (VSCRDEF), opcode 0x33,
args `[top_hi, top_lo, mid_hi, mid_lo, bot_hi, bot_lo]`. -/
def writeSetScrollArea (w : World) (top mid bot : Nat) : Except World World :=
  w.emit (Event.cmd 0x33 [top / 256, top % 256, mid / 256, mid % 256, bot / 256, bot % 256])

/-- Modelled from the spec: `SetScrollStart` (VSCAD), opcode 0x37,
args `[off_hi, off_lo]`. -/
def writeSetScrollStart (w : World) (off : Nat) : Except World World :=
  w.emit (Event.cmd 0x37 [off / 256, off % 256])

/-- Modelled from the spec: `SetInvertMode`, opcode 0x21 (invert on) or
0x20 (off), no args. -/
def writeSetInvertMode (w : World) (ci : ColorInversion) : Except World World :=
  w.emit (Event.cmd (match ci with | .Inverted => 0x21 | .Normal => 0x20) [])

/-- Modelled from the spec: `SetDisplayOn`, opcode 0x29, no args. -/
def writeSetDisplayOn (w : World) : Except World World :=
  w.emit (Event.cmd 0x29 [])

/-- Modelled from the spec: `SetPixelFormat`, opcode 0x3A, one format byte;
the byte derivation lives in the missing `dcs` module, so the format byte is
represented by the bits-per-pixel value (16 for Rgb565). -/
def writeSetPixelFormat (w : World) (bpp : Nat) : Except World World :=
  w.emit (Event.cmd 0x3A [bpp])

/-- Rust `SetAddressMode` (MADCTL) write, opcode 0x36; the mode byte layout lives
in the missing `dcs` module, so the structured value is recorded. -/
def writeMadctl (w : World) (m : SetAddressMode) : Except World World :=
  w.emit (Event.madctlCmd m)

/-- Rust `InterfaceExt::write_raw(opcode, args)`: sends the raw opcode and bytes. -/
def writeRaw (w : World) (opcode : Nat) (args : List Nat) : Except World World :=
  w.emit (Event.cmd opcode args)

/-- Rust `Interface::send_data_slice(data)`: streams a pixel slice, recorded by
its length. -/
def sendDataSlice (w : World) (len : Nat) : Except World World :=
  w.emit (Event.data len)

/-- Reset pin `set_low`. -/
def pinSetLow (w : World) : Except World World :=
  w.emit Event.pinLow

/-- Reset pin `set_high`. -/
def pinSetHigh (w : World) : Except World World :=
  w.emit Event.pinHigh

/-! Section: Model trait defaults (models.rs)

No model under src/ overrides these default method bodies, so they are
embedded once as free functions; `Self::FRAMEBUFFER_SIZE` is passed
explicitly where a default uses it. -/

namespace Model

/-- Rust `Model::sleep` default body (models.rs): write `EnterSleepMode`, then
`delay.delay_us(120_000)`. -/
def sleep (w : World) : Except World World := do
  let w1 ← writeEnterSleepMode w
  .ok (w1.delayUs 120000)

/-- Rust `Model::wake` default body (models.rs): write `ExitSleepMode`, then
`delay.delay_us(120_000)`. -/
def wake (w : World) : Except World World := do
  let w1 ← writeExitSleepMode w
  .ok (w1.delayUs 120000)

/-- Rust `Model::write_memory_start` default body (models.rs): write
`WriteMemoryStart`. -/
def write_memory_start (w : World) : Except World World :=
  writeMemoryStartCmd w

/-- Rust `Model::update_address_window` default body (models.rs): write
`SetColumnAddress::new(sx, ex)`, then `SetPageAddress::new(sy, ey)`. -/
def update_address_window (w : World) (sx sy ex ey : Nat) : Except World World := do
  let w1 ← writeSetColumnAddress w sx ex
  writeSetPageAddress w1 sy ey

/-- Rust `Model::update_options` default body (models.rs): derives the MADCTL
value from the options and writes it.  Its Rust signature is
`-> Result<(), DI::Error>`, so the success payload is the unit value, which
is recorded here verbatim. -/
def update_options (opts : ModelOptions) (w : World) : Except World (Unit × World) := do
  let w1 ← writeMadctl w (SetAddressMode.fromOptions opts)
  .ok ((), w1)

/-- The VSCRDEF parameter computation of `Model::set_vertical_scroll_region`
(models.rs), with checked `u16` arithmetic: the source uses plain `+` and
`-` on `u16`, which panic on overflow/underflow in debug builds; `none`
models that panic. -/
def scrollAreaParams (fbRows top_fixed_area bottom_fixed_area : Nat) :
    Option (Nat × Nat × Nat) :=
  if top_fixed_area + bottom_fixed_area ≤ U16_MAX then
    if top_fixed_area + bottom_fixed_area > fbRows then
      some (fbRows, 0, 0)
    else if top_fixed_area ≤ fbRows ∧ bottom_fixed_area ≤ fbRows - top_fixed_area then
      some (top_fixed_area, fbRows - top_fixed_area - bottom_fixed_area, bottom_fixed_area)
    else
      none
  else
    none

/-- Rust `Model::set_vertical_scroll_region` default body (models.rs): computes
the VSCRDEF parameters, then writes `SetScrollArea`.  The panic case of the
checked arithmetic is surfaced as an error carrying the unchanged world. -/
def set_vertical_scroll_region (fbRows top_fixed_area bottom_fixed_area : Nat)
    (w : World) : Except World World :=
  match scrollAreaParams fbRows top_fixed_area bottom_fixed_area with
  | some (top, mid, bot) => writeSetScrollArea w top mid bot
  | none => .error w

/-- Rust `Model::set_vertical_scroll_offset` default body (models.rs): writes
`SetScrollStart::new(offset)`. -/
def set_vertical_scroll_offset (off : Nat) (w : World) : Except World World :=
  writeSetScrollStart w off

end Model

/-! Section: Session facade (lib.rs) -/

/-- The state of a `Display` (lib.rs) other than the owned bus/model/pin
handles, which live in the `World` and the model parameters. -/
structure Display where
  options : ModelOptions
  madctl : SetAddressMode
  sleeping : Bool
deriving Repr

namespace Display

/-- The pure window computation of `Display::set_address_window` (lib.rs):
starts from the configured offset, reverses per the memory mapping using the
pre-swap axis-specific framebuffer/display extents, swaps if requested, and
translates the rectangle with saturating addition.  `mapping` stands for
`MemoryMapping::from(self.options.orientation)` (derivation file not under
src/). -/
def addressWindow (fb : Nat × Nat) (display_size display_offset : Nat × Nat)
    (mapping : MemoryMapping) (sx sy ex ey : Nat) : Nat × Nat × Nat × Nat :=
  let offset := display_offset
  let offset :=
    if mapping.reverse_columns then
      (satSub16 fb.1 (satAdd16 display_size.1 offset.1), offset.2)
    else offset
  let offset :=
    if mapping.reverse_rows then
      (offset.1, satSub16 fb.2 (satAdd16 display_size.2 offset.2))
    else offset
  let offset :=
    if mapping.swap_rows_and_columns then (offset.2, offset.1) else offset
  (satAdd16 sx offset.1, satAdd16 sy offset.2, satAdd16 ex offset.1, satAdd16 ey offset.2)

/-- Rust `Display::set_address_window` (lib.rs): computes the final window and
delegates to `Model::update_address_window`. -/
def set_address_window (fb : Nat × Nat) (d : Display) (mapping : MemoryMapping)
    (sx sy ex ey : Nat) (w : World) : Except World World :=
  let win := addressWindow fb d.options.display_size d.options.display_offset mapping sx sy ex ey
  Model.update_address_window w win.1 win.2.1 win.2.2.1 win.2.2.2

/-- Rust `Display::show_raw_data` (lib.rs): sets the address window, issues
`write_memory_start`, then streams the pixel slice. -/
def show_raw_data (fb : Nat × Nat) (d : Display) (mapping : MemoryMapping)
    (sx sy ex ey : Nat) (pixelLen : Nat) (w : World) : Except World World := do
  let w1 ← set_address_window fb d mapping sx sy ex ey w
  let w2 ← Model.write_memory_start w1
  sendDataSlice w2 pixelLen

/-- Rust `Display::sleep` (lib.rs): delegates to `Model::sleep` and sets the
sleeping flag only on success (`?` returns early on error, leaving `self`
unchanged). -/
def sleep (d : Display) (w : World) : Except World World × Display :=
  match Model.sleep w with
  | .ok w1 => (.ok w1, { d with sleeping := true })
  | .error we => (.error we, d)

/-- Rust `Display::wake` (lib.rs): delegates to `Model::wake` and clears the
sleeping flag only on success. -/
def wake (d : Display) (w : World) : Except World World × Display :=
  match Model.wake w with
  | .ok w1 => (.ok w1, { d with sleeping := false })
  | .error we => (.error we, d)

end Display

/-- The spec's addressing algorithm (§4.3 steps 2–5), written from the
spec's words for comparison against the source's `addressWindow`:
2. if `mapping.reverse_columns`:
   `offset.x = FRAMEBUFFER_SIZE.w saturating_sub (display_size.w saturating_add offset.x)`;
3. if `mapping.reverse_rows`: the same transform on y/height;
4. if `mapping.swap_rows_and_columns`: swap `offset.x` and `offset.y`;
5. final window `(sx+offset.x, sy+offset.y, ex+offset.x, ey+offset.y)` with
   saturating addition. -/
def specAddressWindow (fb : Nat × Nat) (display_size display_offset : Nat × Nat)
    (mapping : MemoryMapping) (sx sy ex ey : Nat) : Nat × Nat × Nat × Nat :=
  let ox := display_offset.1
  let oy := display_offset.2
  let ox := if mapping.reverse_columns then satSub16 fb.1 (satAdd16 display_size.1 ox) else ox
  let oy := if mapping.reverse_rows then satSub16 fb.2 (satAdd16 display_size.2 oy) else oy
  let (ox, oy) := if mapping.swap_rows_and_columns then (oy, ox) else (ox, oy)
  (satAdd16 sx ox, satAdd16 sy oy, satAdd16 ex ox, satAdd16 ey oy)

/-! Section: Errors and per-chip models -/

/-- Rust `ConfigurationError` (builder.rs). -/
inductive ConfigurationError
  | UnsupportedInterface
  | InvalidDisplaySize
  | InvalidDisplayOffset
deriving DecidableEq, Repr

/-- The constructor shape of `ModelInitError` (models.rs); the interface
error payload is abstracted away, the failure world is carried alongside. -/
inductive ModelInitErrorKind
  | Interface
  | InvalidConfiguration (c : ConfigurationError)
deriving DecidableEq, Repr

/-- Rust `InitError` (builder.rs); error payloads abstracted. -/
inductive InitError
  | Interface
  | ResetPin
  | InvalidConfiguration (c : ConfigurationError)
deriving DecidableEq, Repr

/-- A `Model` implementation: the two associated constants and the
chip-specific `init`; errors carry the world at the failure point. -/
structure ModelSpec where
  FRAMEBUFFER_SIZE : Nat × Nat
  RESET_DURATION : Nat := 10
  init : InterfaceKind → ModelOptions → World →
    Except (ModelInitErrorKind × World) (SetAddressMode × World)

/-- The command/delay body of `GC9107::init` (models/gc9107.rs), run after
the interface-kind check succeeds. -/
def gc9107InitBody (opts : ModelOptions) (w : World) :
    Except World (SetAddressMode × World) := do
  let w := w.delayUs 200000
  let w ← writeRaw w 0xFE []
  let w := w.delayUs 5000
  let w ← writeRaw w 0xEF []
  let w := w.delayUs 5000
  let w ← writeRaw w 0xB0 [0xC0]
  let w ← writeRaw w 0xB2 [0x2F]
  let w ← writeRaw w 0xB3 [0x03]
  let w ← writeRaw w 0xB6 [0x19]
  let w ← writeRaw w 0xB7 [0x01]
  let madctl := SetAddressMode.fromOptions opts
  let w ← writeMadctl w madctl
  let w ← writeRaw w 0xAC [0xCB]
  let w ← writeRaw w 0xAB [0x0E]
  let w ← writeRaw w 0xB4 [0x04]
  let w ← writeRaw w 0xA8 [0x19]
  let w ← writeSetPixelFormat w 16
  let w ← writeRaw w 0xB8 [0x08]
  let w ← writeRaw w 0xE8 [0x24]
  let w ← writeRaw w 0xE9 [0x48]
  let w ← writeRaw w 0xEA [0x22]
  let w ← writeRaw w 0xC6 [0x30]
  let w ← writeRaw w 0xC7 [0x18]
  let w ← writeRaw w 0xF0
    [0x01, 0x2b, 0x23, 0x3c, 0xb7, 0x12, 0x17, 0x60, 0x00, 0x06, 0x0c, 0x17, 0x12, 0x1f]
  let w ← writeRaw w 0xF1
    [0x05, 0x2e, 0x2d, 0x44, 0xd6, 0x15, 0x17, 0xa0, 0x02, 0x0d, 0x0d, 0x1a, 0x18, 0x1f]
  let w ← writeSetInvertMode w opts.invert_colors
  let w ← writeExitSleepMode w
  let w := w.delayUs 120000
  let w ← writeSetDisplayOn w
  .ok (madctl, w)

/-- Rust `GC9107::init` (models/gc9107.rs): rejects any interface kind other than
`Serial4Line` or `Parallel8Bit` with `UnsupportedInterface` before issuing
any command, then runs the bring-up body; interface failures map to
`ModelInitError::Interface`. -/
def gc9107Init (kind : InterfaceKind) (opts : ModelOptions) (w : World) :
    Except (ModelInitErrorKind × World) (SetAddressMode × World) :=
  if kind = InterfaceKind.Serial4Line ∨ kind = InterfaceKind.Parallel8Bit then
    (gc9107InitBody opts w).mapError (fun we => (ModelInitErrorKind.Interface, we))
  else
    .error (ModelInitErrorKind.InvalidConfiguration ConfigurationError.UnsupportedInterface, w)

/-- Rust `GC9107` as a `ModelSpec` (models/gc9107.rs):
`FRAMEBUFFER_SIZE = (128, 160)`, default `RESET_DURATION = 10`. -/
def gc9107Model : ModelSpec :=
  { FRAMEBUFFER_SIZE := (128, 160), init := gc9107Init }

/-- The command/delay body of `RM67162::init` (models/rm67162.rs), run after
the interface-kind check succeeds. -/
def rm67162InitBody (opts : ModelOptions) (w : World) :
    Except World (SetAddressMode × World) := do
  let madctl := SetAddressMode.fromOptions opts
  let w ← writeRaw w 0xFE [0x04]
  let w ← writeRaw w 0x6A [0x00]
  let w ← writeRaw w 0xFE [0x05]
  let w ← writeRaw w 0xFE [0x07]
  let w ← writeRaw w 0x07 [0x4F]
  let w ← writeRaw w 0xFE [0x01]
  let w ← writeRaw w 0x2A [0x02]
  let w ← writeRaw w 0x2B [0x73]
  let w ← writeRaw w 0xFE [0x0A]
  let w ← writeRaw w 0x29 [0x10]
  let w ← writeRaw w 0xFE [0x00]
  let w ← writeRaw w 0x51 [0xaf]
  let w ← writeRaw w 0x53 [0x20]
  let w ← writeRaw w 0x35 [0x00]
  let w ← writeSetPixelFormat w 16
  let w ← writeRaw w 0xC4 [0x80]
  let w ← writeMadctl w madctl
  let w ← writeSetInvertMode w opts.invert_colors
  let w ← writeExitSleepMode w
  let w := w.delayUs 120000
  let w ← writeSetDisplayOn w
  .ok (madctl, w)

/-- Rust `RM67162::init` (models/rm67162.rs): rejects any interface kind other
than `Serial4Line` or `Parallel8Bit` with `UnsupportedInterface` before
issuing any command, then runs the bring-up body. -/
def rm67162Init (kind : InterfaceKind) (opts : ModelOptions) (w : World) :
    Except (ModelInitErrorKind × World) (SetAddressMode × World) :=
  if kind = InterfaceKind.Serial4Line ∨ kind = InterfaceKind.Parallel8Bit then
    (rm67162InitBody opts w).mapError (fun we => (ModelInitErrorKind.Interface, we))
  else
    .error (ModelInitErrorKind.InvalidConfiguration ConfigurationError.UnsupportedInterface, w)

/-- Rust `RM67162` as a `ModelSpec` (models/rm67162.rs):
`FRAMEBUFFER_SIZE = (240, 536)`, default `RESET_DURATION = 10`. -/
def rm67162Model : ModelSpec :=
  { FRAMEBUFFER_SIZE := (240, 536), init := rm67162Init }

/-! Section: Builder (builder.rs) -/

/-- The reset phase of `Builder::init` (builder.rs): with a reset pin, drive
it low, wait `MODEL::RESET_DURATION` µs, drive it high, wait 10 000 µs;
without one, write the `SoftReset` command.  Pin failures become
`InitError::ResetPin`, bus failures `InitError::Interface`. -/
def builderResetSequence (M : ModelSpec) (hasRst : Bool) (w : World) :
    Except InitError World :=
  if hasRst then
    match pinSetLow w with
    | .error _ => .error .ResetPin
    | .ok w1 =>
      let w2 := w1.delayUs M.RESET_DURATION
      match pinSetHigh w2 with
      | .error _ => .error .ResetPin
      | .ok w3 => .ok (w3.delayUs 10000)
  else
    match writeSoftReset w with
    | .error _ => .error .Interface
    | .ok w1 => .ok w1

/-- The delegation tail of `Builder::init` (builder.rs): runs the model's
`init`, maps `ModelInitError` into `InitError`, and on success assembles the
`Display` with the returned MADCTL and a cleared sleeping flag. -/
def builderDelegateInit (M : ModelSpec) (kind : InterfaceKind) (opts : ModelOptions)
    (w : World) : Except InitError (Display × World) :=
  match M.init kind opts w with
  | .error (.Interface, _) => .error .Interface
  | .error (.InvalidConfiguration c, _) => .error (.InvalidConfiguration c)
  | .ok (madctl, w5) => .ok ({ options := opts, madctl := madctl, sleeping := false }, w5)

/-- Rust `Builder::init` (builder.rs): validates size then offset in widened
32-bit arithmetic, runs the reset phase, then delegates to the model's
`init`. -/
def builderInit (M : ModelSpec) (kind : InterfaceKind) (hasRst : Bool)
    (opts : ModelOptions) (w : World) : Except InitError (Display × World) :=
  let width := opts.display_size.1
  let height := opts.display_size.2
  let offset_x := opts.display_offset.1
  let offset_y := opts.display_offset.2
  let max_width := M.FRAMEBUFFER_SIZE.1
  let max_height := M.FRAMEBUFFER_SIZE.2
  if width = 0 ∨ height = 0 ∨ width > max_width ∨ height > max_height then
    .error (.InvalidConfiguration .InvalidDisplaySize)
  else if add32 width offset_x > max_width ∨ add32 height offset_y > max_height then
    .error (.InvalidConfiguration .InvalidDisplayOffset)
  else
    match builderResetSequence M hasRst w with
    | .error e => .error e
    | .ok w4 => builderDelegateInit M kind opts w4

/-! Section: Concrete values used to instantiate theorems -/

/-- A concrete configuration filling the GC9107 framebuffer. -/
def sampleOptions : ModelOptions :=
  ⟨ColorOrder.Rgb, ⟨Rotation.Deg0, false⟩, ColorInversion.Normal,
   ⟨VerticalRefreshOrder.TopToBottom, HorizontalRefreshOrder.LeftToRight⟩, (128, 160), (0, 0)⟩

/-- A concrete session state. -/
def sampleDisplay : Display :=
  ⟨sampleOptions, SetAddressMode.fromOptions sampleOptions, false⟩

/-! Section: Helper lemmas -/

/-- Saturating `u16` addition never exceeds `u16::MAX`. -/
theorem satAdd16_le (a b : Nat) : satAdd16 a b ≤ U16_MAX :=
  Nat.min_le_right _ _

/-- Inversion of a successful fallible operation. -/
theorem emit_ok {w w' : World} {e : Event} (h : w.emit e = .ok w') :
    w.oracle w.opCount = true
      ∧ w' = { w with opCount := w.opCount + 1, trace := w.trace ++ [e] } := by
  unfold World.emit at h
  split at h
  · next hc => cases h; exact ⟨hc, rfl⟩
  · cases h

/-- Inversion of a successful `Except` bind. -/
theorem except_bind_ok {ε α β : Type} {x : Except ε α} {f : α → Except ε β} {b : β}
    (h : x >>= f = .ok b) : ∃ a, x = .ok a ∧ f a = .ok b := by
  cases x with
  | error e => exact absurd h (by simp [Bind.bind, Except.bind])
  | ok a => exact ⟨a, rfl, h⟩

/-- Rust `mapError` never turns a value into a differently-shaped error. -/
theorem mapError_eq_error {ε ε2 α : Type} {x : Except ε α} {f : ε → ε2} {e2 : ε2}
    (h : x.mapError f = .error e2) : ∃ e, x = .error e ∧ e2 = f e := by
  cases x with
  | error e => exact ⟨e, rfl, by cases h; rfl⟩
  | ok a => cases h

/-- Rust `GC9107::init` only ever reports the configuration error
`UnsupportedInterface`. -/
theorem gc9107Init_config_error :
    ∀ k o w2 c we, gc9107Init k o w2 = .error (.InvalidConfiguration c, we) →
      c = ConfigurationError.UnsupportedInterface := by
  intro k o w2 c we h
  unfold gc9107Init at h
  split at h
  · rcases mapError_eq_error h with ⟨e, _, he⟩
    cases he
  · cases h
    rfl

/-- Rust `RM67162::init` only ever reports the configuration error
`UnsupportedInterface`. -/
theorem rm67162Init_config_error :
    ∀ k o w2 c we, rm67162Init k o w2 = .error (.InvalidConfiguration c, we) →
      c = ConfigurationError.UnsupportedInterface := by
  intro k o w2 c we h
  unfold rm67162Init at h
  split at h
  · rcases mapError_eq_error h with ⟨e, _, he⟩
    cases he
  · cases h
    rfl

/-- The reset phase only fails with `ResetPin` or `Interface`. -/
theorem builderResetSequence_error_kind {M : ModelSpec} {hasRst : Bool} {w : World}
    {e : InitError} (h : builderResetSequence M hasRst w = .error e) :
    e = InitError.ResetPin ∨ e = InitError.Interface := by
  unfold builderResetSequence at h
  split at h
  · rcases h1 : pinSetLow w with e1 | w1 <;> rw [h1] at h
    · cases h; exact Or.inl rfl
    · dsimp only at h
      rcases h2 : pinSetHigh (w1.delayUs M.RESET_DURATION) with e2 | w3 <;> rw [h2] at h
      · cases h; exact Or.inl rfl
      · cases h
  · rcases h1 : writeSoftReset w with e1 | w1 <;> rw [h1] at h
    · cases h; exact Or.inr rfl
    · cases h

/-! Section: Claim theorems -/

/-- C1: for every memory mapping (hence every orientation), display size,
display offset and requested rectangle, the address window computed by
`Display::set_address_window` equals the result of the spec's §4.3
algorithm (reverse columns with the pre-swap width, then reverse rows with
the pre-swap height, then swap, then saturating translation), and no
component ever wraps: each is clamped at `u16::MAX`. -/
theorem c1_address_window_matches_spec (fb display_size display_offset : Nat × Nat)
    (mapping : MemoryMapping) (sx sy ex ey : Nat) :
    Display.addressWindow fb display_size display_offset mapping sx sy ex ey
      = specAddressWindow fb display_size display_offset mapping sx sy ex ey
    ∧ (Display.addressWindow fb display_size display_offset mapping sx sy ex ey).1 ≤ U16_MAX
    ∧ (Display.addressWindow fb display_size display_offset mapping sx sy ex ey).2.1 ≤ U16_MAX
    ∧ (Display.addressWindow fb display_size display_offset mapping sx sy ex ey).2.2.1 ≤ U16_MAX
    ∧ (Display.addressWindow fb display_size display_offset mapping sx sy ex ey).2.2.2 ≤ U16_MAX := by
  refine ⟨?_, satAdd16_le _ _, satAdd16_le _ _, satAdd16_le _ _, satAdd16_le _ _⟩
  unfold Display.addressWindow specAddressWindow
  rcases mapping with ⟨rc, rr, sw⟩
  rcases display_offset with ⟨ox, oy⟩
  cases rc <;> cases rr <;> cases sw <;> rfl

/-- C10: the widened 32-bit additions `Builder::init` uses for its offset
checks are exact for all `u16` inputs — the sums stay far below `2^32`, so
the wrap in `add32` never fires and the accept/reject comparison coincides
with the mathematical-integer comparison. -/
theorem c10_widened_validation_exact (width height offset_x offset_y maxW maxH : Nat)
    (h1 : width ≤ U16_MAX) (h2 : height ≤ U16_MAX)
    (h3 : offset_x ≤ U16_MAX) (h4 : offset_y ≤ U16_MAX) :
    add32 width offset_x = width + offset_x
    ∧ add32 height offset_y = height + offset_y
    ∧ width + offset_x < 2 ^ 32
    ∧ height + offset_y < 2 ^ 32
    ∧ ((add32 width offset_x > maxW ∨ add32 height offset_y > maxH)
        ↔ (width + offset_x > maxW ∨ height + offset_y > maxH)) := by
  unfold add32 U16_MAX at *
  have e1 : (width + offset_x) % 2 ^ 32 = width + offset_x := Nat.mod_eq_of_lt (by omega)
  have e2 : (height + offset_y) % 2 ^ 32 = height + offset_y := Nat.mod_eq_of_lt (by omega)
  refine ⟨e1, e2, by omega, by omega, by rw [e1, e2]⟩

/-- C10 witness at concrete `u16` inputs. -/
theorem c10_widened_validation_exact_witness :
    add32 240 65535 = 240 + 65535
    ∧ add32 320 16 = 320 + 16
    ∧ 240 + 65535 < 2 ^ 32
    ∧ 320 + 16 < 2 ^ 32
    ∧ ((add32 240 65535 > 240 ∨ add32 320 16 > 320)
        ↔ (240 + 65535 > 240 ∨ 320 + 16 > 320)) :=
  c10_widened_validation_exact 240 320 65535 16 240 320
    (by decide) (by decide) (by decide) (by decide)

/-- C3 counterexample: at `top_fixed_area = bottom_fixed_area = 32768` on the
GC9107 framebuffer height 160, the mathematical sum exceeds the row count,
yet the default `Model::set_vertical_scroll_region` does not emit the
degenerate `(rows, 0, 0)` area: the plain `u16` addition
`top_fixed_area + bottom_fixed_area` overflows (a panic in debug builds,
modelled as the error case), even though emitting the degenerate area would
have succeeded on the same world. -/
theorem c3_counterexample :
    32768 + 32768 > gc9107Model.FRAMEBUFFER_SIZE.2
    ∧ Model.scrollAreaParams gc9107Model.FRAMEBUFFER_SIZE.2 32768 32768 = none
    ∧ Model.set_vertical_scroll_region gc9107Model.FRAMEBUFFER_SIZE.2 32768 32768 allOkWorld
        = .error allOkWorld
    ∧ writeSetScrollArea allOkWorld gc9107Model.FRAMEBUFFER_SIZE.2 0 0
        = .ok ⟨allOkWorld.oracle, 1, [Event.cmd 0x33 [0, 160, 0, 0, 0, 0]]⟩ :=
  ⟨by decide, rfl, rfl, rfl⟩

/-- C3 (amended): for every pair of `u16` fixed areas whose sum does not
overflow `u16` (`top + bottom ≤ 65535`), the default
`Model::set_vertical_scroll_region` neither overflows nor underflows: when
the sum exceeds the framebuffer row count it emits the degenerate scroll
area `(rows, 0, 0)`, otherwise `(top, rows - top - bottom, bottom)`, and the
parameter computation always produces a value (no panicking arithmetic). -/
theorem c3_scroll_region_no_overflow (fbRows top_fixed_area bottom_fixed_area : Nat)
    (w : World) (hsum : top_fixed_area + bottom_fixed_area ≤ U16_MAX)
    (hok : w.oracle w.opCount = true) :
    (Model.scrollAreaParams fbRows top_fixed_area bottom_fixed_area).isSome = true
    ∧ (top_fixed_area + bottom_fixed_area > fbRows →
        Model.set_vertical_scroll_region fbRows top_fixed_area bottom_fixed_area w
          = .ok { w with
                    opCount := w.opCount + 1,
                    trace := w.trace ++
                      [Event.cmd 0x33 [fbRows / 256, fbRows % 256, 0, 0, 0, 0]] })
    ∧ (top_fixed_area + bottom_fixed_area ≤ fbRows →
        Model.set_vertical_scroll_region fbRows top_fixed_area bottom_fixed_area w
          = .ok { w with
                    opCount := w.opCount + 1,
                    trace := w.trace ++
                      [Event.cmd 0x33
                        [top_fixed_area / 256, top_fixed_area % 256,
                         (fbRows - top_fixed_area - bottom_fixed_area) / 256,
                         (fbRows - top_fixed_area - bottom_fixed_area) % 256,
                         bottom_fixed_area / 256, bottom_fixed_area % 256]] }) := by
  refine ⟨?_, ?_, ?_⟩
  · unfold Model.scrollAreaParams
    rw [if_pos hsum]
    by_cases hgt : top_fixed_area + bottom_fixed_area > fbRows
    · rw [if_pos hgt]; rfl
    · rw [if_neg hgt, if_pos (by constructor <;> omega)]; rfl
  · intro hgt
    unfold Model.set_vertical_scroll_region Model.scrollAreaParams
    rw [if_pos hsum, if_pos hgt]
    unfold writeSetScrollArea World.emit
    simp [hok]
  · intro hle
    have hgt : ¬ top_fixed_area + bottom_fixed_area > fbRows := by omega
    unfold Model.set_vertical_scroll_region Model.scrollAreaParams
    rw [if_pos hsum, if_neg hgt, if_pos (by constructor <;> omega)]
    unfold writeSetScrollArea World.emit
    simp [hok]

/-- C3 witness: concrete fixed areas 10 and 20 on the GC9107 framebuffer
height 160, on an all-success world. -/
theorem c3_scroll_region_no_overflow_witness :
    (Model.scrollAreaParams 160 10 20).isSome = true
    ∧ (10 + 20 > 160 →
        Model.set_vertical_scroll_region 160 10 20 allOkWorld
          = .ok { allOkWorld with
                    opCount := 1,
                    trace := [] ++ [Event.cmd 0x33 [160 / 256, 160 % 256, 0, 0, 0, 0]] })
    ∧ (10 + 20 ≤ 160 →
        Model.set_vertical_scroll_region 160 10 20 allOkWorld
          = .ok { allOkWorld with
                    opCount := 1,
                    trace := [] ++ [Event.cmd 0x33
                      [10 / 256, 10 % 256, (160 - 10 - 20) / 256, (160 - 10 - 20) % 256,
                       20 / 256, 20 % 256]] }) :=
  c3_scroll_region_no_overflow 160 10 20 allOkWorld (by decide) rfl

/-- C9: the default `Model::sleep` writes `EnterSleepMode` (0x10) and then
unconditionally waits 120 000 µs before returning, and the default
`Model::wake` writes `ExitSleepMode` (0x11) and then waits 120 000 µs; in
the emitted trace the delay directly follows the command write, and the
function returns only after the delay, so no further command can be issued
before it elapses. -/
theorem c9_sleep_wake_settle (w : World) (hok : w.oracle w.opCount = true) :
    Model.sleep w = .ok { w with
                          opCount := w.opCount + 1,
                          trace := w.trace ++ [Event.cmd 0x10 [], Event.delayUs 120000] }
    ∧ Model.wake w = .ok { w with
                           opCount := w.opCount + 1,
                           trace := w.trace ++ [Event.cmd 0x11 [], Event.delayUs 120000] } := by
  constructor
  · unfold Model.sleep writeEnterSleepMode World.emit World.delayUs
    simp [hok, Bind.bind, Except.bind]
  · unfold Model.wake writeExitSleepMode World.emit World.delayUs
    simp [hok, Bind.bind, Except.bind]

/-- C9 witness on an all-success world. -/
theorem c9_sleep_wake_settle_witness :
    Model.sleep allOkWorld
      = .ok { allOkWorld with
              opCount := allOkWorld.opCount + 1,
              trace := allOkWorld.trace ++ [Event.cmd 0x10 [], Event.delayUs 120000] }
    ∧ Model.wake allOkWorld
      = .ok { allOkWorld with
              opCount := allOkWorld.opCount + 1,
              trace := allOkWorld.trace ++ [Event.cmd 0x11 [], Event.delayUs 120000] } :=
  c9_sleep_wake_settle allOkWorld rfl

/-- C8: `Display::sleep` sets the sleeping flag to true only when the
model's sleep operation succeeds and `Display::wake` clears it only when the
wake operation succeeds; on failure the flag (and the whole session state)
retains its prior value; a successful sleep followed by a successful wake
leaves the flag false. -/
theorem c8_sleeping_flag (d : Display) (w : World) :
    (∀ we, Model.sleep w = .error we → (Display.sleep d w).2 = d)
    ∧ (∀ w1, Model.sleep w = .ok w1 →
        Display.sleep d w = (.ok w1, { d with sleeping := true }))
    ∧ (∀ we, Model.wake w = .error we → (Display.wake d w).2 = d)
    ∧ (∀ w1, Model.wake w = .ok w1 →
        Display.wake d w = (.ok w1, { d with sleeping := false }))
    ∧ (∀ w1 d1 w2 d2, Display.sleep d w = (.ok w1, d1) →
        Display.wake d1 w1 = (.ok w2, d2) → d2.sleeping = false) := by
  refine ⟨?_, ?_, ?_, ?_, ?_⟩
  · intro we h; unfold Display.sleep; rw [h]
  · intro w1 h; unfold Display.sleep; rw [h]
  · intro we h; unfold Display.wake; rw [h]
  · intro w1 h; unfold Display.wake; rw [h]
  · intro w1 d1 w2 d2 h1 h2
    unfold Display.wake at h2
    rcases hm : Model.wake w1 with we | wk <;> rw [hm] at h2
    · simp at h2
    · rw [Prod.mk.injEq] at h2
      rw [← h2.2]

/-- C8 witness: a successful sleep then wake on a concrete session leaves
the sleeping flag false. -/
theorem c8_sleeping_flag_witness :
    ((Display.wake { sampleDisplay with sleeping := true }
        ⟨fun _ => true, 1, [Event.cmd 0x10 [], Event.delayUs 120000]⟩).2).sleeping = false :=
  (c8_sleeping_flag sampleDisplay allOkWorld).2.2.2.2
    ⟨fun _ => true, 1, [Event.cmd 0x10 [], Event.delayUs 120000]⟩
    { sampleDisplay with sleeping := true }
    ⟨fun _ => true, 2, [Event.cmd 0x10 [], Event.delayUs 120000,
                        Event.cmd 0x11 [], Event.delayUs 120000]⟩
    { sampleDisplay with sleeping := false }
    rfl rfl

/-- C4 (code evaluation): the default `Model::update_options` recomputes the
MADCTL value from the options and writes it to the bus, but its success
payload is the unit value — its signature is `-> Result<(), DI::Error>` —
whereas `Display::set_orientation` binds this result and stores it into the
`SetAddressMode`-typed `madctl` cache, so the claimed returned-value refresh
does not exist in the code as written. -/
theorem c4_update_options_writes_madctl_returns_unit (opts : ModelOptions) (w : World)
    (hok : w.oracle w.opCount = true) :
    Model.update_options opts w
      = .ok ((), { w with
                   opCount := w.opCount + 1,
                   trace := w.trace ++ [Event.madctlCmd (SetAddressMode.fromOptions opts)] }) := by
  unfold Model.update_options writeMadctl World.emit
  simp [hok, Bind.bind, Except.bind]

/-- C4 witness on a concrete configuration and all-success world. -/
theorem c4_update_options_witness :
    Model.update_options sampleOptions allOkWorld
      = .ok ((), { allOkWorld with
                   opCount := allOkWorld.opCount + 1,
                   trace := allOkWorld.trace ++
                     [Event.madctlCmd (SetAddressMode.fromOptions sampleOptions)] }) :=
  c4_update_options_writes_madctl_returns_unit sampleOptions allOkWorld rfl

/-- C5: after `Builder::init`'s validation succeeds, with a reset pin the
sequence is: pin low, `RESET_DURATION` µs delay, pin high, 10 000 µs settle
delay — and no `SoftReset` command; without a pin, exactly one `SoftReset`
(0x01) command and no pin edges; in both cases the model's `init` then
receives exactly the resulting world. -/
theorem c5_reset_sequencing (M : ModelSpec) (kind : InterfaceKind) (opts : ModelOptions)
    (w : World)
    (h1 : ¬(opts.display_size.1 = 0 ∨ opts.display_size.2 = 0
            ∨ opts.display_size.1 > M.FRAMEBUFFER_SIZE.1
            ∨ opts.display_size.2 > M.FRAMEBUFFER_SIZE.2))
    (h2 : ¬(add32 opts.display_size.1 opts.display_offset.1 > M.FRAMEBUFFER_SIZE.1
            ∨ add32 opts.display_size.2 opts.display_offset.2 > M.FRAMEBUFFER_SIZE.2)) :
    (w.oracle w.opCount = true → w.oracle (w.opCount + 1) = true →
      builderInit M kind true opts w
        = builderDelegateInit M kind opts
            { oracle := w.oracle, opCount := w.opCount + 2,
              trace := w.trace ++ [Event.pinLow, Event.delayUs M.RESET_DURATION,
                                   Event.pinHigh, Event.delayUs 10000] })
    ∧ (w.oracle w.opCount = true →
      builderInit M kind false opts w
        = builderDelegateInit M kind opts
            { oracle := w.oracle, opCount := w.opCount + 1,
              trace := w.trace ++ [Event.cmd 0x01 []] }) := by
  constructor
  · intro hk1 hk2
    unfold builderInit
    rw [if_neg h1, if_neg h2]
    unfold builderResetSequence pinSetLow pinSetHigh World.emit World.delayUs
    simp [hk1, hk2]
  · intro hk1
    unfold builderInit
    rw [if_neg h1, if_neg h2]
    unfold builderResetSequence writeSoftReset World.emit
    simp [hk1]

/-- C5 witness: the GC9107 model, a valid full-size configuration and an
all-success world. -/
theorem c5_reset_sequencing_witness :
    (allOkWorld.oracle allOkWorld.opCount = true →
      allOkWorld.oracle (allOkWorld.opCount + 1) = true →
      builderInit gc9107Model InterfaceKind.Serial4Line true sampleOptions allOkWorld
        = builderDelegateInit gc9107Model InterfaceKind.Serial4Line sampleOptions
            { oracle := allOkWorld.oracle, opCount := allOkWorld.opCount + 2,
              trace := allOkWorld.trace ++
                [Event.pinLow, Event.delayUs gc9107Model.RESET_DURATION,
                 Event.pinHigh, Event.delayUs 10000] })
    ∧ (allOkWorld.oracle allOkWorld.opCount = true →
      builderInit gc9107Model InterfaceKind.Serial4Line false sampleOptions allOkWorld
        = builderDelegateInit gc9107Model InterfaceKind.Serial4Line sampleOptions
            { oracle := allOkWorld.oracle, opCount := allOkWorld.opCount + 1,
              trace := allOkWorld.trace ++ [Event.cmd 0x01 []] }) :=
  c5_reset_sequencing gc9107Model InterfaceKind.Serial4Line sampleOptions allOkWorld
    (by decide) (by decide)

/-- C6: `GC9107::init` and `RM67162::init` reject a `Parallel16Bit` bus with
the `UnsupportedInterface` configuration error before issuing any bring-up
command (the world comes back untouched), and `Builder::init` on the GC9107
propagates it as `InitError::InvalidConfiguration`, returning an error — so
no `Display` value is constructed for that attempt. -/
theorem c6_unsupported_interface (opts : ModelOptions) (w w4 : World) (hasRst : Bool)
    (h1 : ¬(opts.display_size.1 = 0 ∨ opts.display_size.2 = 0
            ∨ opts.display_size.1 > gc9107Model.FRAMEBUFFER_SIZE.1
            ∨ opts.display_size.2 > gc9107Model.FRAMEBUFFER_SIZE.2))
    (h2 : ¬(add32 opts.display_size.1 opts.display_offset.1 > gc9107Model.FRAMEBUFFER_SIZE.1
            ∨ add32 opts.display_size.2 opts.display_offset.2 > gc9107Model.FRAMEBUFFER_SIZE.2))
    (hreset : builderResetSequence gc9107Model hasRst w = .ok w4) :
    gc9107Init InterfaceKind.Parallel16Bit opts w
      = .error (ModelInitErrorKind.InvalidConfiguration
          ConfigurationError.UnsupportedInterface, w)
    ∧ rm67162Init InterfaceKind.Parallel16Bit opts w
      = .error (ModelInitErrorKind.InvalidConfiguration
          ConfigurationError.UnsupportedInterface, w)
    ∧ builderInit gc9107Model InterfaceKind.Parallel16Bit hasRst opts w
      = .error (InitError.InvalidConfiguration ConfigurationError.UnsupportedInterface)
    ∧ (∀ d w5, builderInit gc9107Model InterfaceKind.Parallel16Bit hasRst opts w
        ≠ .ok (d, w5)) := by
  have hgc : ∀ w0 : World, gc9107Init InterfaceKind.Parallel16Bit opts w0
      = .error (ModelInitErrorKind.InvalidConfiguration
          ConfigurationError.UnsupportedInterface, w0) := by
    intro w0
    unfold gc9107Init
    rw [if_neg (by simp)]
  have hbuild : builderInit gc9107Model InterfaceKind.Parallel16Bit hasRst opts w
      = .error (InitError.InvalidConfiguration ConfigurationError.UnsupportedInterface) := by
    unfold builderInit
    rw [if_neg h1, if_neg h2, hreset]
    dsimp only
    unfold builderDelegateInit
    rw [show gc9107Model.init = gc9107Init from rfl, hgc w4]
  refine ⟨hgc w, ?_, hbuild, ?_⟩
  · unfold rm67162Init
    rw [if_neg (by simp)]
  · intro d w5
    rw [hbuild]
    simp

/-- C2: for every configured display size and offset (as `u16` values),
`Builder::init` returns `InvalidDisplaySize` exactly when the width or
height is zero or exceeds the framebuffer bound, and otherwise returns
`InvalidDisplayOffset` exactly when size plus offset exceeds the
framebuffer bound componentwise (mathematical comparison — so
boundary-equal configurations pass validation); the model hypothesis
records that the model's own `init` reports no configuration error other
than `UnsupportedInterface`, as all embedded models do. -/
theorem c2_builder_validation (M : ModelSpec) (kind : InterfaceKind) (hasRst : Bool)
    (opts : ModelOptions) (w : World)
    (hM : ∀ k o w2 c we, M.init k o w2 = .error (.InvalidConfiguration c, we) →
        c = ConfigurationError.UnsupportedInterface)
    (hw : opts.display_size.1 ≤ U16_MAX) (hh : opts.display_size.2 ≤ U16_MAX)
    (hx : opts.display_offset.1 ≤ U16_MAX) (hy : opts.display_offset.2 ≤ U16_MAX) :
    (builderInit M kind hasRst opts w
        = .error (InitError.InvalidConfiguration ConfigurationError.InvalidDisplaySize)
      ↔ (opts.display_size.1 = 0 ∨ opts.display_size.2 = 0
          ∨ opts.display_size.1 > M.FRAMEBUFFER_SIZE.1
          ∨ opts.display_size.2 > M.FRAMEBUFFER_SIZE.2))
    ∧ (builderInit M kind hasRst opts w
        = .error (InitError.InvalidConfiguration ConfigurationError.InvalidDisplayOffset)
      ↔ (¬(opts.display_size.1 = 0 ∨ opts.display_size.2 = 0
            ∨ opts.display_size.1 > M.FRAMEBUFFER_SIZE.1
            ∨ opts.display_size.2 > M.FRAMEBUFFER_SIZE.2)
          ∧ (opts.display_size.1 + opts.display_offset.1 > M.FRAMEBUFFER_SIZE.1
             ∨ opts.display_size.2 + opts.display_offset.2 > M.FRAMEBUFFER_SIZE.2))) := by
  have ha1 : add32 opts.display_size.1 opts.display_offset.1
      = opts.display_size.1 + opts.display_offset.1 := by
    unfold add32; exact Nat.mod_eq_of_lt (by unfold U16_MAX at hw hx; omega)
  have ha2 : add32 opts.display_size.2 opts.display_offset.2
      = opts.display_size.2 + opts.display_offset.2 := by
    unfold add32; exact Nat.mod_eq_of_lt (by unfold U16_MAX at hh hy; omega)
  by_cases hsz : (opts.display_size.1 = 0 ∨ opts.display_size.2 = 0
      ∨ opts.display_size.1 > M.FRAMEBUFFER_SIZE.1
      ∨ opts.display_size.2 > M.FRAMEBUFFER_SIZE.2)
  · have hres : builderInit M kind hasRst opts w
        = .error (InitError.InvalidConfiguration ConfigurationError.InvalidDisplaySize) := by
      unfold builderInit; rw [if_pos hsz]
    refine ⟨⟨fun _ => hsz, fun _ => hres⟩, ⟨fun h => ?_, fun h => absurd hsz h.1⟩⟩
    have hcontra := hres.symm.trans h
    simp at hcontra
  · by_cases hoff : (add32 opts.display_size.1 opts.display_offset.1 > M.FRAMEBUFFER_SIZE.1
        ∨ add32 opts.display_size.2 opts.display_offset.2 > M.FRAMEBUFFER_SIZE.2)
    · have hres : builderInit M kind hasRst opts w
          = .error (InitError.InvalidConfiguration ConfigurationError.InvalidDisplayOffset) := by
        unfold builderInit; rw [if_neg hsz, if_pos hoff]
      refine ⟨⟨fun h => ?_, fun hcond => absurd hcond hsz⟩,
              ⟨fun _ => ⟨hsz, by rw [← ha1, ← ha2]; exact hoff⟩, fun _ => hres⟩⟩
      have hcontra := hres.symm.trans h
      simp at hcontra
    · have hne : ∀ c, (c = ConfigurationError.InvalidDisplaySize
          ∨ c = ConfigurationError.InvalidDisplayOffset) →
          builderInit M kind hasRst opts w ≠ .error (InitError.InvalidConfiguration c) := by
        intro c hc
        unfold builderInit
        rw [if_neg hsz, if_neg hoff]
        cases hr : builderResetSequence M hasRst w with
        | error e =>
          dsimp only
          intro hcontra
          injection hcontra with h1
          rcases builderResetSequence_error_kind hr with he | he <;> rw [he] at h1 <;> cases h1
        | ok w4 =>
          dsimp only
          unfold builderDelegateInit
          cases hi : M.init kind opts w4 with
          | error e =>
            obtain ⟨k2, we⟩ := e
            cases k2 with
            | Interface =>
              dsimp only
              intro hcontra
              injection hcontra with h1
              cases h1
            | InvalidConfiguration c2 =>
              dsimp only
              intro hcontra
              injection hcontra with h1
              injection h1 with h2
              have hun := hM kind opts w4 c2 we hi
              rw [h2] at hun
              rcases hc with hc | hc <;> rw [hc] at hun <;> cases hun
          | ok a =>
            obtain ⟨m, w5⟩ := a
            dsimp only
            intro hcontra
            cases hcontra
      refine ⟨⟨fun h => absurd h (hne _ (Or.inl rfl)), fun hcond => absurd hcond hsz⟩,
              ⟨fun h => absurd h (hne _ (Or.inr rfl)), fun hcond => ?_⟩⟩
      exact absurd (by rw [ha1, ha2]; exact hcond.2) hoff

/-- C2 witness: the GC9107 model with a boundary-equal configuration
(width + offset.x = 128, height + offset.y = 160), which passes both
validation checks. -/
theorem c2_builder_validation_witness :
    (builderInit gc9107Model InterfaceKind.Serial4Line true
        { sampleOptions with display_size := (120, 150), display_offset := (8, 10) } allOkWorld
        = .error (InitError.InvalidConfiguration ConfigurationError.InvalidDisplaySize)
      ↔ ((120 : Nat) = 0 ∨ (150 : Nat) = 0
          ∨ (120 : Nat) > gc9107Model.FRAMEBUFFER_SIZE.1
          ∨ (150 : Nat) > gc9107Model.FRAMEBUFFER_SIZE.2))
    ∧ (builderInit gc9107Model InterfaceKind.Serial4Line true
        { sampleOptions with display_size := (120, 150), display_offset := (8, 10) } allOkWorld
        = .error (InitError.InvalidConfiguration ConfigurationError.InvalidDisplayOffset)
      ↔ (¬((120 : Nat) = 0 ∨ (150 : Nat) = 0
            ∨ (120 : Nat) > gc9107Model.FRAMEBUFFER_SIZE.1
            ∨ (150 : Nat) > gc9107Model.FRAMEBUFFER_SIZE.2)
          ∧ ((120 : Nat) + 8 > gc9107Model.FRAMEBUFFER_SIZE.1
             ∨ (150 : Nat) + 10 > gc9107Model.FRAMEBUFFER_SIZE.2))) :=
  c2_builder_validation gc9107Model InterfaceKind.Serial4Line true
    { sampleOptions with display_size := (120, 150), display_offset := (8, 10) } allOkWorld
    gc9107Init_config_error (by decide) (by decide) (by decide) (by decide)

/-- C7: every successful `Display::show_raw_data` emits, in order, the
column-address command, the page-address command, `WriteMemoryStart` (0x2C),
and the pixel-data burst — nothing else and nothing between them, so through
this public operation pixel data is always immediately preceded by
`WriteMemoryStart`. -/
theorem c7_show_raw_data_order (fb : Nat × Nat) (d : Display) (mapping : MemoryMapping)
    (sx sy ex ey pixelLen : Nat) (w w3 : World)
    (h : Display.show_raw_data fb d mapping sx sy ex ey pixelLen w = .ok w3) :
    ∃ colArgs pageArgs, w3.trace = w.trace ++
      [Event.cmd 0x2A colArgs, Event.cmd 0x2B pageArgs,
       Event.cmd 0x2C [], Event.data pixelLen] := by
  unfold Display.show_raw_data at h
  obtain ⟨w1, hA, h2⟩ := except_bind_ok h
  obtain ⟨w2, hB, h3⟩ := except_bind_ok h2
  unfold Display.set_address_window Model.update_address_window at hA
  obtain ⟨wc, hcol, hpage⟩ := except_bind_ok hA
  unfold writeSetColumnAddress at hcol
  unfold writeSetPageAddress at hpage
  unfold Model.write_memory_start writeMemoryStartCmd at hB
  unfold sendDataSlice at h3
  obtain ⟨-, hwc⟩ := emit_ok hcol
  obtain ⟨-, hw1⟩ := emit_ok hpage
  obtain ⟨-, hw2⟩ := emit_ok hB
  obtain ⟨-, hw3⟩ := emit_ok h3
  subst hwc hw1 hw2 hw3
  refine
    ⟨[(Display.addressWindow fb d.options.display_size d.options.display_offset
          mapping sx sy ex ey).1 / 256,
      (Display.addressWindow fb d.options.display_size d.options.display_offset
          mapping sx sy ex ey).1 % 256,
      (Display.addressWindow fb d.options.display_size d.options.display_offset
          mapping sx sy ex ey).2.2.1 / 256,
      (Display.addressWindow fb d.options.display_size d.options.display_offset
          mapping sx sy ex ey).2.2.1 % 256],
     [(Display.addressWindow fb d.options.display_size d.options.display_offset
          mapping sx sy ex ey).2.1 / 256,
      (Display.addressWindow fb d.options.display_size d.options.display_offset
          mapping sx sy ex ey).2.1 % 256,
      (Display.addressWindow fb d.options.display_size d.options.display_offset
          mapping sx sy ex ey).2.2.2 / 256,
      (Display.addressWindow fb d.options.display_size d.options.display_offset
          mapping sx sy ex ey).2.2.2 % 256], ?_⟩
  simp

/-- C7 witness: a concrete successful `show_raw_data` call on an all-success
world emits exactly the window commands, `WriteMemoryStart` and the data
burst, in order. -/
theorem c7_show_raw_data_order_witness :
    ∃ colArgs pageArgs,
      (⟨fun _ => true, 4,
        [Event.cmd 0x2A [0, 1, 0, 3], Event.cmd 0x2B [0, 2, 0, 4],
         Event.cmd 0x2C [], Event.data 7]⟩ : World).trace
        = allOkWorld.trace ++
          [Event.cmd 0x2A colArgs, Event.cmd 0x2B pageArgs,
           Event.cmd 0x2C [], Event.data 7] :=
  c7_show_raw_data_order (128, 160) sampleDisplay ⟨false, false, false⟩
    1 2 3 4 7 allOkWorld
    ⟨fun _ => true, 4,
      [Event.cmd 0x2A [0, 1, 0, 3], Event.cmd 0x2B [0, 2, 0, 4],
       Event.cmd 0x2C [], Event.data 7]⟩
    rfl

/-- C6 witness: a full-size GC9107 configuration on an all-success world
with a reset pin present. -/
theorem c6_unsupported_interface_witness :
    gc9107Init InterfaceKind.Parallel16Bit sampleOptions allOkWorld
      = .error (ModelInitErrorKind.InvalidConfiguration
          ConfigurationError.UnsupportedInterface, allOkWorld)
    ∧ rm67162Init InterfaceKind.Parallel16Bit sampleOptions allOkWorld
      = .error (ModelInitErrorKind.InvalidConfiguration
          ConfigurationError.UnsupportedInterface, allOkWorld)
    ∧ builderInit gc9107Model InterfaceKind.Parallel16Bit true sampleOptions allOkWorld
      = .error (InitError.InvalidConfiguration ConfigurationError.UnsupportedInterface)
    ∧ (∀ d w5, builderInit gc9107Model InterfaceKind.Parallel16Bit true sampleOptions allOkWorld
        ≠ .ok (d, w5)) :=
  c6_unsupported_interface sampleOptions allOkWorld
    ⟨fun _ => true, 2, [Event.pinLow, Event.delayUs 10, Event.pinHigh, Event.delayUs 10000]⟩
    true (by decide) (by decide) rfl

end Mipidsi
